import Mathlib

set_option maxHeartbeats 1000000

/-
Shallow embedding of `src/app.py`: a small Flask proxy in front of the
Gutendex book catalog.  Python strings are modelled as Lean `String`
(sequences of Unicode code points).  The ASCII behaviour of Python's
regex classes `\w` and `\s` and of `str.strip` / `str.lower` is modelled
exactly; code points above U+007F are treated as non-word and non-space
characters and are not case-mapped (the queries and table keys the
program compares against are all ASCII).
-/

/-- Python whitespace for `str.strip` and the regex class `\s`
    (ASCII part): space, tab, newline, carriage return, vertical tab,
    form feed. -/
def pyIsSpace (c : Char) : Bool :=
  c = ' ' || c = '\t' || c = '\n' || c = '\r' || c = Char.ofNat 11 || c = Char.ofNat 12

/-- Regex class `\w` (ASCII part): letters, digits, underscore. -/
def pyIsWord (c : Char) : Bool :=
  decide (('a' ≤ c ∧ c ≤ 'z') ∨ ('A' ≤ c ∧ c ≤ 'Z') ∨ ('0' ≤ c ∧ c ≤ '9') ∨ c = '_')

/-- ASCII case mapping of `str.lower`. -/
def pyLowerChar (c : Char) : Char :=
  if 'A' ≤ c ∧ c ≤ 'Z' then Char.ofNat (c.toNat + 32) else c

/-- Python `str.lower` (ASCII part). -/
def pyLower (s : String) : String := ⟨s.data.map pyLowerChar⟩

/-- Python `str.strip()` on a character list: drop whitespace from both ends. -/
def stripList (l : List Char) : List Char :=
  ((l.dropWhile pyIsSpace).reverse.dropWhile pyIsSpace).reverse

/-- Python `str.strip()`. -/
def pyStrip (s : String) : String := ⟨stripList s.data⟩

/-- Python slicing `s[:n]`. -/
def pyTake (n : Nat) (s : String) : String := ⟨s.data.take n⟩

/-
The query parser of `parse_search_query` is driven by
`re.finditer(r'(\w+)=(.+?)(?=\s+\w+=|$)', raw_query)`.
We embed this fixed pattern directly:

* `(\w+)=` matches a maximal nonempty run of word characters followed by
  a literal `=` (a shorter run cannot match, as the following character
  would again be a word character, never `=`);
* `(.+?)` lazily takes at least one character that is not a newline,
  extending one character at a time until the lookahead holds;
* the lookahead `(?=\s+\w+=|$)` holds when the remaining suffix starts
  with whitespace, then a word run, then `=`, or at the end of the
  string, or just before a single trailing newline (Python `$`).

`re.finditer` scans left to right: it tries to match at each position,
yields a match and resumes at its end (the lookahead consumes nothing),
or advances by one character on failure.
-/

/-- The lookahead `(?=\s+\w+=|$)`, applied to the remaining suffix `t`
    of the whole input. -/
def lookaheadOk (t : List Char) : Bool :=
  t.isEmpty || t == ['\n'] ||
    (let sp := t.takeWhile pyIsSpace
     let u := t.drop sp.length
     let w := u.takeWhile pyIsWord
     !sp.isEmpty && !w.isEmpty && ((u.drop w.length).head? == some '='))

/-- Lazy matching of `(.+?)(?=\s+\w+=|$)`: `acc` holds the (reversed)
    characters taken so far (at least one); extend while the lookahead
    fails, never across a newline.  Returns the group and the remaining
    suffix. -/
def valueScan : List Char → List Char → Option (List Char × List Char)
  | acc, rem =>
    if lookaheadOk rem then some (acc.reverse, rem)
    else
      match rem with
      | [] => none
      | c :: r => if c = '\n' then none else valueScan (c :: acc) r

/-- One attempt of the pattern `(\w+)=(.+?)(?=\s+\w+=|$)` anchored at the
    start of `s`; returns (key group, value group, rest of the input). -/
def tryMatch (s : List Char) : Option (List Char × List Char × List Char) :=
  let k := s.takeWhile pyIsWord
  if k.isEmpty then none
  else
    match s.drop k.length with
    | '=' :: s2 =>
      match s2 with
      | [] => none
      | c :: r =>
        if c = '\n' then none
        else
          match valueScan [c] r with
          | some (v, rest) => some (k, v, rest)
          | none => none
    | _ => none

/-- Left-to-right scan of `re.finditer`: on a match, resume after it;
    otherwise advance one character.  Each step strictly shortens the
    input, so fuel equal to the length of the input suffices. -/
def scanTokens : Nat → List Char → List (String × String)
  | 0, _ => []
  | _ + 1, [] => []
  | fuel + 1, s =>
    match tryMatch s with
    | some (k, v, rest) => (⟨k⟩, ⟨v⟩) :: scanTokens fuel rest
    | none => scanTokens fuel s.tail

/-- The list of `(key, value)` groups found by
    `re.finditer(r'(\w+)=(.+?)(?=\s+\w+=|$)', raw)`, in order. -/
def pyTokens (raw : String) : List (String × String) :=
  scanTokens raw.data.length raw.data

/-- The static priority table `FORMAT_MAPPING` of `app.py`: format code to
    ordered list of acceptable MIME types, first entry preferred. -/
def FORMAT_MAPPING : List (String × List String) :=
  [("epub", ["application/epub+zip"]),
   ("mobi", ["application/x-mobipocket-ebook", "application/kindle"]),
   ("pdf", ["application/pdf"]),
   ("html", ["text/html"]),
   ("txt", ["text/plain", "text/plain; charset=utf-8"])]

/-- Python dict membership/subscript on the association lists we use for
    dicts: the first binding of the key, if any. -/
def alookup {β : Type} : List (String × β) → String → Option β
  | [], _ => none
  | (k0, v0) :: rest, k => if k0 = k then some v0 else alookup rest k

/-- Python dict assignment `d[k] = v`: update the existing binding in
    place, or append a new one. -/
def setParam : List (String × String) → String → String → List (String × String)
  | [], k, v => [(k, v)]
  | (k0, v0) :: rest, k, v =>
    if k0 = k then (k, v) :: rest else (k0, v0) :: setParam rest k v

/-- The mutable state of the token loop of `parse_search_query`:
    the `params` dict, the accumulated `search_terms`, and the
    `target_formats` list. -/
structure ParseState where
  params : List (String × String)
  search_terms : List String
  target_formats : List String
deriving Repr, DecidableEq

/-- The body of the token loop of `parse_search_query`, applied to one
    `(key, value)` group: the key is lowercased, the value stripped;
    `title`/`author`/`search` accumulate search terms, `lang`/`language`
    set `params['languages']` to the first two characters of the value,
    `format` with a value found in `FORMAT_MAPPING` sets
    `params['mime_type']` to that format's preferred MIME type and
    narrows `target_formats` to that one code; every other key is
    ignored. -/
def applyToken (st : ParseState) (kv : String × String) : ParseState :=
  if pyLower kv.1 = "title" ∨ pyLower kv.1 = "author" ∨ pyLower kv.1 = "search" then
    { st with search_terms := st.search_terms ++ [pyStrip kv.2] }
  else if pyLower kv.1 = "lang" ∨ pyLower kv.1 = "language" then
    { st with params := setParam st.params "languages" (pyTake 2 (pyStrip kv.2)) }
  else if pyLower kv.1 = "format" then
    match alookup FORMAT_MAPPING (pyLower (pyStrip kv.2)) with
    | some mimes =>
      { st with params := setParam st.params "mime_type" (mimes.headD ""),
                target_formats := [pyLower (pyStrip kv.2)] }
    | none => st
  else st

/-- The tail of `parse_search_query` on a nonempty match list: run the
    loop from the initial state, then join any accumulated search terms
    with spaces into `params['search']`. -/
def finishParse (ms : List (String × String)) : List (String × String) × List String :=
  let st := ms.foldl applyToken ⟨[], [], ["epub", "mobi"]⟩
  let params :=
    if st.search_terms.isEmpty then st.params
    else setParam st.params "search" (String.intercalate " " st.search_terms)
  (params, st.target_formats)

/-- `parse_search_query` of `app.py`: returns the Gutendex `params` dict
    and the target format list.  With no matches the whole raw string
    becomes a single free-text search term and the default target
    formats `['epub', 'mobi']` are returned. -/
def parse_search_query (raw : String) : List (String × String) × List String :=
  let ms := pyTokens raw
  if ms.isEmpty then ([("search", raw)], ["epub", "mobi"])
  else finishParse ms

/-- One element of a book's `authors` array: an object with a `name`. -/
structure Author where
  name : String
deriving Repr, DecidableEq

/-- A book object of the Gutendex JSON: identifier, title, authors,
    language codes, and the `formats` dict mapping MIME type to URL. -/
structure Book where
  id : Nat
  title : String
  authors : List Author
  languages : List String
  formats : List (String × String)
deriving Repr, DecidableEq

/-- One available download option attached to a shaped book. -/
structure FormatOption where
  type : String
  download_link : String
deriving Repr, DecidableEq

/-- One entry of the shaped `results` list of the search endpoint. -/
structure BookSummary where
  id : Nat
  title : String
  authors : String
  languages : List String
  options : List FormatOption
deriving Repr, DecidableEq

/-- The inner loop of `search_books` for one book: walk the target
    formats in order, skip codes missing from `FORMAT_MAPPING`, and
    record an option for each code some of whose MIME types occurs in
    the book's `formats` dict, with the generated relative link
    `/download/{id}/{format_code}`. -/
def availableOptions (b : Book) : List String → List FormatOption
  | [] => []
  | f :: rest =>
    match alookup FORMAT_MAPPING f with
    | none => availableOptions b rest
    | some mimes =>
      if mimes.any (fun m => (alookup b.formats m).isSome) then
        ⟨f, "/download/" ++ toString b.id ++ "/" ++ f⟩ :: availableOptions b rest
      else availableOptions b rest

/-- Whether at least one target format code has, per `FORMAT_MAPPING`,
    some MIME type present in the book's `formats` dict. -/
def hasTargetFormat (b : Book) (targets : List String) : Bool :=
  targets.any (fun f =>
    match alookup FORMAT_MAPPING f with
    | some mimes => mimes.any (fun m => (alookup b.formats m).isSome)
    | none => false)

/-- The shaped entry `search_books` appends for a kept book. -/
def summarize (targets : List String) (b : Book) : BookSummary :=
  ⟨b.id, b.title, String.intercalate ", " (b.authors.map Author.name),
    b.languages, availableOptions b targets⟩

/-- The result-shaping loop of `search_books`: iterate over the first
    five upstream results and keep exactly the books whose computed
    option list is nonempty. -/
def shapeResults (books : List Book) (targets : List String) : List BookSummary :=
  (books.take 5).filterMap (fun b =>
    if (availableOptions b targets).isEmpty then none
    else some (summarize targets b))

/-- The success payload of `search_books`: `{"count": len(results),
    "results": results}`. -/
def searchPayload (books : List Book) (targets : List String) : Nat × List BookSummary :=
  ((shapeResults books targets).length, shapeResults books targets)

/-- An HTTP outcome of the search endpoint: a JSON error with a status
    code, or the shaped payload. -/
inductive SearchOutcome
  | err (status : Nat) (message : String)
  | ok (count : Nat) (results : List BookSummary)
deriving Repr, DecidableEq

/-- The `search_books` handler.  `q` is the optional `q` query argument
    (`request.args.get('q', '')` turns an absent argument into `""`, and
    `if not raw_query` rejects exactly the empty string).  `catalog`
    models the upstream `requests.get(GUTENDEX_API_URL, params=...)`
    call followed by `.json()` and `data.get('results', [])`; `none`
    stands for any exception on that path (caught and turned into a
    500).  The second component records the parameter dicts of the
    upstream calls actually made, in order. -/
def search_books (q : Option String)
    (catalog : List (String × String) → Option (List Book)) :
    SearchOutcome × List (List (String × String)) :=
  let raw := q.getD ""
  if raw = "" then (.err 400 "Missing 'q'", [])
  else
    let pt := parse_search_query raw
    match catalog pt.1 with
    | none => (.err 500 "upstream or decoding failure", [pt.1])
    | some books =>
      (.ok (searchPayload books pt.2).1 (searchPayload books pt.2).2, [pt.1])

/-- The characters removed by `re.sub(r'[\\/*?:"<>|]', "", filename)`. -/
def illegalChars : List Char := ['\\', '/', '*', '?', ':', '"', '<', '>', '|']

/-- Sanitization step of `format_filename`: remove every illegal
    character, keep everything else unchanged. -/
def sanitize (s : String) : String :=
  ⟨s.data.filter (fun c => !illegalChars.contains c)⟩

/-- Surname extraction of `format_filename`: text before the first comma
    of the first author's name, stripped; `"Unknown"` when the author
    list is empty. -/
def surname (b : Book) : String :=
  match b.authors with
  | [] => "Unknown"
  | a :: _ => pyStrip ⟨a.name.data.takeWhile (fun c => c != ',')⟩

/-- Title cleanup of `format_filename`:
    `title.replace('\r', '').replace('\n', ' ')`. -/
def cleanTitle (t : String) : String :=
  ⟨(t.data.filter (fun c => c != '\r')).map (fun c => if c = '\n' then ' ' else c)⟩

/-- Title truncation of `format_filename`: if the (cleaned) title is
    longer than 42 characters, keep its first 42 characters, strip
    surrounding whitespace, and append `"..."`. -/
def truncTitle (t : String) : String :=
  if 42 < t.data.length then pyStrip ⟨t.data.take 42⟩ ++ "..." else t

/-- Language extraction of `format_filename`: first language code, or
    `"en"` for an empty (or absent) language list. -/
def langCode (b : Book) : String := b.languages.headD "en"

/-- The composed filename of `format_filename` before sanitization:
    `f"{surname} - {title} [{lang_code}].{fmt_type}"`. -/
def baseFilename (b : Book) (fmt : String) : String :=
  surname b ++ " - " ++ truncTitle (cleanTitle b.title) ++ " [" ++ langCode b ++ "]." ++ fmt

/-- `format_filename` of `app.py`. -/
def format_filename (b : Book) (fmt : String) : String :=
  sanitize (baseFilename b fmt)

/-- Base URL of the upstream catalog. -/
def GUTENDEX_API_URL : String := "https://gutendex.com/books"

/-- The environment of one `download_book` request.  `meta` models
    `requests.get(meta_url)`: `none` is an exception during the request,
    `some (status, json)` a response with that status code whose
    `.json()` gives a book (`some`) or raises (`none`).  `fetch` models
    `requests.get(download_url, stream=True)`: `none` is an exception,
    `some (status, content)` a response. -/
structure DownloadEnv where
  meta : Option (Nat × Option Book)
  fetch : String → Option (Nat × String)

/-- A record of one outbound request made by the download handler. -/
inductive UpCall
  | meta (url : String)
  | file (url : String)
deriving Repr, DecidableEq

/-- An HTTP outcome of the download endpoint: a JSON error with a status
    code, or a served file with its MIME type and attachment name. -/
inductive DlOutcome
  | err (status : Nat) (message : String)
  | file (content : String) (mimetype : String) (filename : String)
deriving Repr, DecidableEq

/-- The URL-selection loop of `download_book`: first MIME type of the
    format's priority list that occurs in the book's `formats` dict. -/
def findUrl : List String → List (String × String) → Option String
  | [], _ => none
  | m :: rest, formats =>
    match alookup formats m with
    | some u => some u
    | none => findUrl rest formats

/-- The `download_book` handler.  Unknown format codes are rejected with
    a 400 before any upstream request; a 404 metadata status yields a
    404 error; the resolved URL must be truthy (`if not download_url`
    also treats an empty string as absent); `raise_for_status` turns any
    file-fetch status of 400 or above into the catch-all 500; otherwise
    the bytes are served under the format's first-listed MIME type and
    the derived filename.  The second component records the outbound
    requests made, in order. -/
def download_book (book_id : Nat) (fmt_type : String) (env : DownloadEnv) :
    DlOutcome × List UpCall :=
  match alookup FORMAT_MAPPING fmt_type with
  | none => (.err 400 "Invalid format", [])
  | some target_mimes =>
    let meta_url := GUTENDEX_API_URL ++ "/" ++ toString book_id
    match env.meta with
    | none => (.err 500 "request exception", [.meta meta_url])
    | some (status, json) =>
      if status = 404 then (.err 404 "Book not found", [.meta meta_url])
      else
        match json with
        | none => (.err 500 "json decoding failure", [.meta meta_url])
        | some book =>
          let filename := format_filename book fmt_type
          match findUrl target_mimes book.formats with
          | none => (.err 404 "Format not found", [.meta meta_url])
          | some url =>
            if url = "" then (.err 404 "Format not found", [.meta meta_url])
            else
              match env.fetch url with
              | none => (.err 500 "request exception", [.meta meta_url, .file url])
              | some (code, content) =>
                if 400 ≤ code then
                  (.err 500 "http status error", [.meta meta_url, .file url])
                else
                  (.file content (target_mimes.headD "") filename,
                    [.meta meta_url, .file url])

/-- Token classifier: does the loop treat this `(key, value)` group as a
    language assignment? -/
def isLangTok (kv : String × String) : Bool :=
  pyLower kv.1 == "lang" || pyLower kv.1 == "language"

/-- Token classifier: does the loop treat this `(key, value)` group as a
    recognized format selection? -/
def isFmtTok (kv : String × String) : Bool :=
  pyLower kv.1 == "format" && (alookup FORMAT_MAPPING (pyLower (pyStrip kv.2))).isSome

theorem alookup_setParam_self (ps : List (String × String)) (k v : String) :
    alookup (setParam ps k v) k = some v := by
  induction ps with
  | nil => simp [setParam, alookup]
  | cons p rest ih =>
    obtain ⟨k0, v0⟩ := p
    by_cases h : k0 = k
    · simp [setParam, h, alookup]
    · simp [setParam, h, alookup, ih]

theorem alookup_setParam_ne (ps : List (String × String)) (k k1 v : String)
    (h : k1 ≠ k) : alookup (setParam ps k v) k1 = alookup ps k1 := by
  have hne : ¬ k = k1 := fun e => h e.symm
  induction ps with
  | nil => simp [setParam, alookup, hne]
  | cons p rest ih =>
    obtain ⟨k0, v0⟩ := p
    by_cases h0 : k0 = k
    · subst h0
      simp [setParam, alookup, hne]
    · by_cases h1 : k0 = k1 <;> simp [setParam, h0, alookup, h1, ih, h]

theorem applyToken_lang (st : ParseState) (kv : String × String)
    (h : isLangTok kv = true) :
    alookup (applyToken st kv).params "languages" = some (pyTake 2 (pyStrip kv.2))
    ∧ (applyToken st kv).target_formats = st.target_formats := by
  simp only [isLangTok, Bool.or_eq_true, beq_iff_eq] at h
  rcases h with h | h <;>
    simp [applyToken, h, alookup_setParam_self]

theorem applyToken_not_lang (st : ParseState) (kv : String × String)
    (h : isLangTok kv = false) :
    alookup (applyToken st kv).params "languages" = alookup st.params "languages" := by
  simp only [isLangTok, Bool.or_eq_false_iff, beq_eq_false_iff_ne, ne_eq] at h
  unfold applyToken
  split_ifs with h1 h2 h3
  · rfl
  · exact absurd h2 (by simpa using h)
  · cases hm : alookup FORMAT_MAPPING (pyLower (pyStrip kv.2)) with
    | none => rfl
    | some mimes =>
      simp only
      exact alookup_setParam_ne _ _ _ _ (by decide)
  · rfl

theorem applyToken_fmt (st : ParseState) (kv : String × String)
    (h : isFmtTok kv = true) :
    (applyToken st kv).target_formats = [pyLower (pyStrip kv.2)]
    ∧ alookup (applyToken st kv).params "mime_type"
      = some (((alookup FORMAT_MAPPING (pyLower (pyStrip kv.2))).getD []).headD "") := by
  simp only [isFmtTok, Bool.and_eq_true, beq_iff_eq] at h
  obtain ⟨hk, hs⟩ := h
  obtain ⟨mimes, hm⟩ := Option.isSome_iff_exists.mp hs
  simp [applyToken, hk, hm, alookup_setParam_self]

theorem applyToken_not_fmt (st : ParseState) (kv : String × String)
    (h : isFmtTok kv = false) :
    (applyToken st kv).target_formats = st.target_formats
    ∧ alookup (applyToken st kv).params "mime_type"
      = alookup st.params "mime_type" := by
  unfold applyToken
  split_ifs with h1 h2 h3
  · exact ⟨rfl, rfl⟩
  · exact ⟨rfl, alookup_setParam_ne _ _ _ _ (by decide)⟩
  · simp only [isFmtTok, h3, beq_self_eq_true, Bool.true_and] at h
    cases hm : alookup FORMAT_MAPPING (pyLower (pyStrip kv.2)) with
    | none => exact ⟨rfl, rfl⟩
    | some mimes => rw [hm] at h; simp at h
  · exact ⟨rfl, rfl⟩

theorem applyToken_params_other (st : ParseState) (kv : String × String)
    (k : String) (h1 : k ≠ "languages") (h2 : k ≠ "mime_type") :
    alookup (applyToken st kv).params k = alookup st.params k := by
  unfold applyToken
  split_ifs with g1 g2 g3
  · rfl
  · exact alookup_setParam_ne _ _ _ _ h1
  · cases hm : alookup FORMAT_MAPPING (pyLower (pyStrip kv.2)) with
    | none => rfl
    | some mimes =>
      simp only
      exact alookup_setParam_ne _ _ _ _ h2
  · rfl

theorem applyToken_year (st : ParseState) (kv : String × String)
    (h : pyLower kv.1 = "year") : applyToken st kv = st := by
  simp [applyToken, h]

theorem foldl_lang (toks : List (String × String)) (st : ParseState) :
    alookup ((toks.foldl applyToken st).params) "languages"
      = (match (toks.filter isLangTok).getLast? with
         | some kv => some (pyTake 2 (pyStrip kv.2))
         | none => alookup st.params "languages") := by
  induction toks generalizing st with
  | nil => rfl
  | cons a toks ih =>
    rw [List.foldl_cons, List.filter_cons, ih]
    by_cases ha : isLangTok a
    · rw [if_pos ha]
      cases hft : toks.filter isLangTok with
      | nil => simpa using (applyToken_lang st a ha).1
      | cons b l =>
        rw [List.getLast?_cons_cons]
        cases hgl : (b :: l).getLast? with
        | none => simp at hgl
        | some kv2 => rfl
    · rw [if_neg (by simpa using ha)]
      cases hft : toks.filter isLangTok with
      | nil => simpa using applyToken_not_lang st a (by simpa using ha)
      | cons b l => rfl

theorem foldl_fmt (toks : List (String × String)) (st : ParseState) :
    ((toks.foldl applyToken st).target_formats,
      alookup ((toks.foldl applyToken st).params) "mime_type")
      = (match (toks.filter isFmtTok).getLast? with
         | some kv =>
           ([pyLower (pyStrip kv.2)],
             some (((alookup FORMAT_MAPPING (pyLower (pyStrip kv.2))).getD []).headD ""))
         | none => (st.target_formats, alookup st.params "mime_type")) := by
  induction toks generalizing st with
  | nil => rfl
  | cons a toks ih =>
    rw [List.foldl_cons, List.filter_cons, ih]
    by_cases ha : isFmtTok a
    · rw [if_pos ha]
      cases hft : toks.filter isFmtTok with
      | nil =>
        have h2 := applyToken_fmt st a ha
        simp [h2.1, h2.2]
      | cons b l =>
        rw [List.getLast?_cons_cons]
        cases hgl : (b :: l).getLast? with
        | none => simp at hgl
        | some kv2 => rfl
    · rw [if_neg (by simpa using ha)]
      cases hft : toks.filter isFmtTok with
      | nil =>
        have h2 := applyToken_not_fmt st a (by simpa using ha)
        simp [h2.1, h2.2]
      | cons b l => rfl

theorem foldl_params_other (toks : List (String × String)) (st : ParseState)
    (k : String) (h1 : k ≠ "languages") (h2 : k ≠ "mime_type") :
    alookup ((toks.foldl applyToken st).params) k = alookup st.params k := by
  induction toks generalizing st with
  | nil => rfl
  | cons a toks ih =>
    rw [List.foldl_cons, ih, applyToken_params_other st a k h1 h2]

theorem foldl_drop_year (toks : List (String × String)) (st : ParseState) :
    toks.foldl applyToken st
      = (toks.filter (fun kv => pyLower kv.1 != "year")).foldl applyToken st := by
  induction toks generalizing st with
  | nil => rfl
  | cons a toks ih =>
    rw [List.foldl_cons, List.filter_cons]
    by_cases ha : pyLower a.1 = "year"
    · rw [if_neg (by simp [ha]), applyToken_year st a ha, ih]
    · rw [if_pos (by simp [ha]), List.foldl_cons, ih]

theorem parse_nonempty (raw : String) (h : pyTokens raw ≠ []) :
    parse_search_query raw = finishParse (pyTokens raw) := by
  have he : (pyTokens raw).isEmpty = false := List.isEmpty_eq_false.mpr h
  simp [parse_search_query, he]

theorem finishParse_drop_year (toks : List (String × String)) :
    finishParse toks
      = finishParse (toks.filter (fun kv => pyLower kv.1 != "year")) := by
  unfold finishParse
  rw [← foldl_drop_year]

theorem finishParse_lookup (ms : List (String × String)) (k : String)
    (h : k ≠ "search") :
    alookup (finishParse ms).1 k
      = alookup ((ms.foldl applyToken ⟨[], [], ["epub", "mobi"]⟩).params) k := by
  unfold finishParse
  by_cases h0 : (ms.foldl applyToken ⟨[], [], ["epub", "mobi"]⟩).search_terms.isEmpty
  · simp [h0]
  · simp [h0, alookup_setParam_ne _ _ _ _ h]

theorem finishParse_targets (ms : List (String × String)) :
    (finishParse ms).2
      = (ms.foldl applyToken ⟨[], [], ["epub", "mobi"]⟩).target_formats := by
  unfold finishParse
  by_cases h0 : (ms.foldl applyToken ⟨[], [], ["epub", "mobi"]⟩).search_terms.isEmpty <;>
    simp [h0]

theorem isEmpty_availableOptions (b : Book) (targets : List String) :
    (availableOptions b targets).isEmpty = !hasTargetFormat b targets := by
  induction targets with
  | nil => rfl
  | cons f rest ih =>
    simp only [availableOptions, hasTargetFormat, List.any_cons]
    cases hm : alookup FORMAT_MAPPING f with
    | none =>
      simp only [hasTargetFormat] at ih
      simpa using ih
    | some mimes =>
      by_cases ha : mimes.any (fun m => (alookup b.formats m).isSome)
      · simp [ha]
      · simp only [hasTargetFormat] at ih
        simpa [ha] using ih

theorem shapeResults_characterization (books : List Book) (targets : List String) :
    shapeResults books targets
      = ((books.take 5).filter (fun b => hasTargetFormat b targets)).map
          (summarize targets) := by
  unfold shapeResults
  induction books.take 5 with
  | nil => rfl
  | cons b l ih =>
    rw [List.filterMap_cons, List.filter_cons]
    by_cases h : hasTargetFormat b targets
    · have he : (availableOptions b targets).isEmpty = false := by
        rw [isEmpty_availableOptions, h]; rfl
      simp [he, h]
      simpa using ih
    · have he : (availableOptions b targets).isEmpty = true := by
        rw [isEmpty_availableOptions]
        simp [Bool.not_eq_true] at h
        simp [h]
      simp [he, h]
      simpa using ih

theorem stripList_eq_self (l : List Char)
    (h1 : l.head?.all (fun a => !pyIsSpace a) = true)
    (h2 : l.getLast?.all (fun a => !pyIsSpace a) = true) :
    stripList l = l := by
  unfold stripList
  have hd : l.dropWhile pyIsSpace = l := by
    cases l with
    | nil => rfl
    | cons a t =>
      simp only [List.head?_cons, Option.all_some] at h1
      have h1a : pyIsSpace a = false := by simpa using h1
      rw [List.dropWhile_cons, if_neg (by simp [h1a])]
  rw [hd]
  have hr : l.reverse.dropWhile pyIsSpace = l.reverse := by
    cases hrev : l.reverse with
    | nil => rfl
    | cons a t =>
      have ha : l.getLast? = some a := by
        rw [← List.head?_reverse, hrev, List.head?_cons]
      rw [ha, Option.all_some] at h2
      have h2a : pyIsSpace a = false := by simpa using h2
      rw [List.dropWhile_cons, if_neg (by simp [h2a])]
  rw [hr, List.reverse_reverse]

/-- Claim C1: for every catalog response and target format list, the
    result shaper considers only the first five entries of the upstream
    result list in upstream order, includes a book exactly when at least
    one target format code has some associated MIME type present in that
    book's formats map, and the returned count equals the number of
    books actually included. -/
theorem C1_result_shaper (books : List Book) (targets : List String) :
    shapeResults books targets = shapeResults (books.take 5) targets
    ∧ shapeResults books targets
        = ((books.take 5).filter (fun b => hasTargetFormat b targets)).map
            (summarize targets)
    ∧ (searchPayload books targets).1 = (shapeResults books targets).length := by
  refine ⟨?_, shapeResults_characterization books targets, rfl⟩
  unfold shapeResults
  rw [List.take_take]
  norm_num

/-- Claim C2: whenever the tokenizer finds no `key=value` group in the
    raw query, the parser returns the filter set `{search: raw}` alone
    together with the default target format list. -/
theorem C2_no_tokens (raw : String) (h : pyTokens raw = []) :
    parse_search_query raw = ([("search", raw)], ["epub", "mobi"]) := by
  simp [parse_search_query, h]

theorem C2_no_tokens_witness :
    pyTokens "Metamorphosis" = []
    ∧ parse_search_query "Metamorphosis"
        = ([("search", "Metamorphosis")], ["epub", "mobi"]) :=
  ⟨by decide, C2_no_tokens "Metamorphosis" (by decide)⟩

/-- Claim C3 is refuted as stated: the query `"format=epub format=pdf"`
    contains the token `format=epub`, yet the target format list is
    `["pdf"]` and the MIME-type filter is `application/pdf`, because a
    later recognized `format=` token overwrites the earlier one. -/
theorem C3_counterexample :
    ("format", "epub") ∈ pyTokens "format=epub format=pdf"
    ∧ (parse_search_query "format=epub format=pdf").2 ≠ ["epub"]
    ∧ alookup (parse_search_query "format=epub format=pdf").1 "mime_type"
        ≠ some "application/epub+zip"
    ∧ parse_search_query "format=epub format=pdf"
        = ([("mime_type", "application/pdf")], ["pdf"]) := by decide

/-- Claim C3 as amended: whenever the last `format=` token with a
    recognized value has the value `epub`, the target format list is
    exactly `["epub"]` and the MIME-type filter is epub's preferred MIME
    type `application/epub+zip`. -/
theorem C3_last_format_epub (raw : String) (kv : String × String)
    (h : ((pyTokens raw).filter isFmtTok).getLast? = some kv)
    (he : pyLower (pyStrip kv.2) = "epub") :
    (parse_search_query raw).2 = ["epub"]
    ∧ alookup (parse_search_query raw).1 "mime_type"
        = some "application/epub+zip" := by
  have hne : pyTokens raw ≠ [] := by
    intro h0
    rw [h0] at h
    simp at h
  rw [parse_nonempty raw hne]
  have hf := foldl_fmt (pyTokens raw) ⟨[], [], ["epub", "mobi"]⟩
  rw [h] at hf
  have h1 := congrArg Prod.fst hf
  have h2 := congrArg Prod.snd hf
  simp only at h1 h2
  constructor
  · rw [finishParse_targets, h1, he]
  · rw [finishParse_lookup _ _ (by decide), h2, he]
    decide

theorem C3_last_format_epub_witness :
    ((pyTokens "format=epub").filter isFmtTok).getLast? = some ("format", "epub")
    ∧ pyLower (pyStrip "epub") = "epub"
    ∧ ((parse_search_query "format=epub").2 = ["epub"]
       ∧ alookup (parse_search_query "format=epub").1 "mime_type"
           = some "application/epub+zip") :=
  ⟨by decide, by decide,
    C3_last_format_epub "format=epub" ("format", "epub") (by decide) (by decide)⟩

/-- Claim C4 is refuted: the query `"year=1900"` produces one token
    `(year, 1900)`, yet the resulting filter set is empty — the loop of
    `parse_search_query` has no branch for the key `year`, so no
    start-year or end-year filter is ever set. -/
theorem C4_counterexample :
    pyTokens "year=1900" = [("year", "1900")]
    ∧ (parse_search_query "year=1900").1 = []
    ∧ alookup (parse_search_query "year=1900").1 "author_year_start" = none
    ∧ alookup (parse_search_query "year=1900").1 "author_year_end" = none := by
  decide

/-- Claim C4 as amended: a `year=V` token is an unrecognized key and is
    ignored — parsing gives the same result as with all `year` tokens
    removed from the token list, and in particular neither a start-year
    nor an end-year filter is present in the filter set. -/
theorem C4_year_ignored (raw : String)
    (h : ∃ kv ∈ pyTokens raw, pyLower kv.1 = "year") :
    parse_search_query raw
      = finishParse ((pyTokens raw).filter (fun kv => pyLower kv.1 != "year"))
    ∧ alookup (parse_search_query raw).1 "author_year_start" = none
    ∧ alookup (parse_search_query raw).1 "author_year_end" = none := by
  have hne : pyTokens raw ≠ [] := by
    obtain ⟨kv, hm, _⟩ := h
    intro h0
    rw [h0] at hm
    exact absurd hm (List.not_mem_nil kv)
  rw [parse_nonempty raw hne]
  refine ⟨finishParse_drop_year _, ?_, ?_⟩ <;>
    rw [finishParse_lookup _ _ (by decide),
      foldl_params_other _ _ _ (by decide) (by decide)] <;> rfl

theorem C4_year_ignored_witness :
    (("year", "1900") ∈ pyTokens "year=1900 author=kafka"
      ∧ pyLower ("year", "1900").1 = "year")
    ∧ (parse_search_query "year=1900 author=kafka"
        = finishParse ((pyTokens "year=1900 author=kafka").filter
            (fun kv => pyLower kv.1 != "year"))
       ∧ alookup (parse_search_query "year=1900 author=kafka").1
           "author_year_start" = none
       ∧ alookup (parse_search_query "year=1900 author=kafka").1
           "author_year_end" = none) :=
  ⟨⟨by decide, by decide⟩,
    C4_year_ignored "year=1900 author=kafka" ⟨("year", "1900"), by decide, by decide⟩⟩

/-- Claim C5: with two or more `lang=`/`language=` tokens, the language
    filter equals the last such token's value, stripped and truncated to
    its first two characters; earlier occurrences are overwritten. -/
theorem C5_last_lang_wins (raw : String) (kv : String × String)
    (_hlen : 2 ≤ ((pyTokens raw).filter isLangTok).length)
    (hlast : ((pyTokens raw).filter isLangTok).getLast? = some kv) :
    alookup (parse_search_query raw).1 "languages"
      = some (pyTake 2 (pyStrip kv.2)) := by
  have hne : pyTokens raw ≠ [] := by
    intro h0
    rw [h0] at hlast
    simp at hlast
  rw [parse_nonempty raw hne, finishParse_lookup _ _ (by decide), foldl_lang, hlast]

theorem C5_last_lang_wins_witness :
    2 ≤ ((pyTokens "lang=english lang=french").filter isLangTok).length
    ∧ ((pyTokens "lang=english lang=french").filter isLangTok).getLast?
        = some ("lang", "french")
    ∧ alookup (parse_search_query "lang=english lang=french").1 "languages"
        = some (pyTake 2 (pyStrip "french"))
    ∧ pyTake 2 (pyStrip "french") = "fr" :=
  ⟨by decide, by decide,
    C5_last_lang_wins "lang=english lang=french" ("lang", "french")
      (by decide) (by decide), by decide⟩

/-- Claim C6: for every book and format code, the produced filename
    contains none of the characters `\ / * ? : " < > |`, and it equals
    the composed base filename with exactly those characters removed —
    every other character (accented letters included) is preserved
    unchanged, in order. -/
theorem C6_filename_sanitization (b : Book) (fmt : String) :
    ((format_filename b fmt).data.all (fun c => !illegalChars.contains c)) = true
    ∧ (format_filename b fmt).data
        = (baseFilename b fmt).data.filter (fun c => !illegalChars.contains c) := by
  refine ⟨?_, rfl⟩
  rw [List.all_eq_true]
  intro c hc
  have := List.mem_filter.mp hc
  exact this.2

/-- Claim C7 is refuted as stated: for the 60-character ASCII title of
    41 `a`s, a space, and 18 `b`s, the cleaned title is longer than 42
    characters, but the truncated title is not the first 42 characters
    plus `"..."` — `title[:42].strip()` drops the trailing space, so the
    result has length 44, not 42 + 3. -/
theorem C7_counterexample :
    42 < (cleanTitle "aaaaaaaaaaaaaaaaaaaaaaaaaaaaaaaaaaaaaaaaa bbbbbbbbbbbbbbbbbb").data.length
    ∧ (cleanTitle "aaaaaaaaaaaaaaaaaaaaaaaaaaaaaaaaaaaaaaaaa bbbbbbbbbbbbbbbbbb").data.length = 60
    ∧ truncTitle (cleanTitle "aaaaaaaaaaaaaaaaaaaaaaaaaaaaaaaaaaaaaaaaa bbbbbbbbbbbbbbbbbb")
        ≠ ⟨(cleanTitle "aaaaaaaaaaaaaaaaaaaaaaaaaaaaaaaaaaaaaaaaa bbbbbbbbbbbbbbbbbb").data.take 42⟩ ++ "..."
    ∧ (truncTitle (cleanTitle "aaaaaaaaaaaaaaaaaaaaaaaaaaaaaaaaaaaaaaaaa bbbbbbbbbbbbbbbbbb")).data.length = 44 := by
  decide

/-- Claim C7 as amended: a cleaned title longer than 42 characters is
    truncated to its first 42 characters with surrounding whitespace
    stripped, then `"..."` is appended; when the 42-character prefix
    neither starts nor ends with whitespace this is exactly the first 42
    characters plus the 3-character suffix, 45 characters in total. -/
theorem C7_title_truncation (t : String)
    (h : 42 < (cleanTitle t).data.length)
    (h1 : ((cleanTitle t).data.take 42).head?.all (fun a => !pyIsSpace a) = true)
    (h2 : ((cleanTitle t).data.take 42).getLast?.all (fun a => !pyIsSpace a) = true) :
    truncTitle (cleanTitle t) = ⟨(cleanTitle t).data.take 42⟩ ++ "..."
    ∧ (truncTitle (cleanTitle t)).data.length = 45 := by
  have hs : pyStrip ⟨(cleanTitle t).data.take 42⟩ = ⟨(cleanTitle t).data.take 42⟩ := by
    unfold pyStrip
    exact congrArg String.mk (stripList_eq_self _ h1 h2)
  have hc : truncTitle (cleanTitle t) = ⟨(cleanTitle t).data.take 42⟩ ++ "..." := by
    unfold truncTitle
    rw [if_pos h, hs]
  refine ⟨hc, ?_⟩
  rw [hc, String.data_append, List.length_append, List.length_take]
  have : 42 ⊓ (cleanTitle t).data.length = 42 := by omega
  rw [this]
  rfl

theorem C7_title_truncation_witness :
    (42 < (cleanTitle "AAAAAAAAAAAAAAAAAAAAAAAAAAAAAAAAAAAAAAAAAAAAAAAAAAAAAAAAAAAA").data.length
     ∧ ((cleanTitle "AAAAAAAAAAAAAAAAAAAAAAAAAAAAAAAAAAAAAAAAAAAAAAAAAAAAAAAAAAAA").data.take 42).head?.all (fun a => !pyIsSpace a) = true
     ∧ ((cleanTitle "AAAAAAAAAAAAAAAAAAAAAAAAAAAAAAAAAAAAAAAAAAAAAAAAAAAAAAAAAAAA").data.take 42).getLast?.all (fun a => !pyIsSpace a) = true)
    ∧ (truncTitle (cleanTitle "AAAAAAAAAAAAAAAAAAAAAAAAAAAAAAAAAAAAAAAAAAAAAAAAAAAAAAAAAAAA")
        = ⟨(cleanTitle "AAAAAAAAAAAAAAAAAAAAAAAAAAAAAAAAAAAAAAAAAAAAAAAAAAAAAAAAAAAA").data.take 42⟩ ++ "..."
       ∧ (truncTitle (cleanTitle "AAAAAAAAAAAAAAAAAAAAAAAAAAAAAAAAAAAAAAAAAAAAAAAAAAAAAAAAAAAA")).data.length = 45) :=
  ⟨⟨by decide, by decide, by decide⟩,
    C7_title_truncation "AAAAAAAAAAAAAAAAAAAAAAAAAAAAAAAAAAAAAAAAAAAAAAAAAAAAAAAAAAAA"
      (by decide) (by decide) (by decide)⟩

/-- Claim C8 is refuted as stated: a book whose formats dict maps
    `application/kindle` to the empty string and lacks
    `application/x-mobipocket-ebook` satisfies the claim's premise, yet
    the download fails with a 404 — `if not download_url` treats the
    empty URL string as absent. -/
theorem C8_counterexample :
    alookup (Book.mk 84 "Frankenstein" [⟨"Shelley, Mary"⟩] ["en"]
        [("application/kindle", "")]).formats "application/x-mobipocket-ebook" = none
    ∧ (alookup (Book.mk 84 "Frankenstein" [⟨"Shelley, Mary"⟩] ["en"]
        [("application/kindle", "")]).formats "application/kindle").isSome = true
    ∧ (download_book 84 "mobi"
        ⟨some (200, some (Book.mk 84 "Frankenstein" [⟨"Shelley, Mary"⟩] ["en"]
          [("application/kindle", "")])), fun _ => some (200, "BYTES")⟩).1
        = .err 404 "Format not found" := by
  decide

/-- Claim C8 as amended: for a download of format `mobi` on a book whose
    formats dict lacks `application/x-mobipocket-ebook` but maps
    `application/kindle` to a non-empty URL, when the metadata lookup
    returns the book and the file fetch for that URL succeeds, the relay
    fetches from the kindle URL and serves the bytes labeled with the
    format's first-listed MIME type `application/x-mobipocket-ebook`
    under the derived filename. -/
theorem C8_relay_mobi_alternate (book : Book) (env : DownloadEnv)
    (book_id : Nat) (url content : String) (mst code : Nat)
    (hmeta : env.meta = some (mst, some book)) (hmst : mst ≠ 404)
    (h1 : alookup book.formats "application/x-mobipocket-ebook" = none)
    (h2 : alookup book.formats "application/kindle" = some url)
    (hurl : url ≠ "")
    (hfetch : env.fetch url = some (code, content)) (hcode : code < 400) :
    download_book book_id "mobi" env
      = (.file content "application/x-mobipocket-ebook" (format_filename book "mobi"),
         [.meta (GUTENDEX_API_URL ++ "/" ++ toString book_id), .file url]) := by
  have hmap : alookup FORMAT_MAPPING "mobi"
      = some ["application/x-mobipocket-ebook", "application/kindle"] := by decide
  have hfind : findUrl ["application/x-mobipocket-ebook", "application/kindle"]
      book.formats = some url := by
    unfold findUrl
    rw [h1]
    unfold findUrl
    rw [h2]
  unfold download_book
  rw [hmap]
  simp only [hmeta, hfind, if_neg hmst, hfetch, if_neg (by omega : ¬ 400 ≤ code), hurl]
  simp [hurl]

theorem C8_relay_mobi_alternate_witness :
    ((DownloadEnv.mk (some (200, some (Book.mk 84 "Frankenstein" [⟨"Shelley, Mary"⟩]
        ["en"] [("application/kindle", "https://mirror.example/84.mobi")])))
        (fun _ => some (200, "BYTES"))).meta
      = some (200, some (Book.mk 84 "Frankenstein" [⟨"Shelley, Mary"⟩]
          ["en"] [("application/kindle", "https://mirror.example/84.mobi")]))
     ∧ alookup [("application/kindle", "https://mirror.example/84.mobi")]
         "application/x-mobipocket-ebook" = none
     ∧ alookup [("application/kindle", "https://mirror.example/84.mobi")]
         "application/kindle" = some "https://mirror.example/84.mobi")
    ∧ download_book 84 "mobi"
        (DownloadEnv.mk (some (200, some (Book.mk 84 "Frankenstein" [⟨"Shelley, Mary"⟩]
          ["en"] [("application/kindle", "https://mirror.example/84.mobi")])))
          (fun _ => some (200, "BYTES")))
      = (.file "BYTES" "application/x-mobipocket-ebook"
          (format_filename (Book.mk 84 "Frankenstein" [⟨"Shelley, Mary"⟩]
            ["en"] [("application/kindle", "https://mirror.example/84.mobi")]) "mobi"),
         [.meta (GUTENDEX_API_URL ++ "/" ++ toString 84),
          .file "https://mirror.example/84.mobi"]) :=
  ⟨⟨rfl, by decide, by decide⟩,
    C8_relay_mobi_alternate
      (Book.mk 84 "Frankenstein" [⟨"Shelley, Mary"⟩]
        ["en"] [("application/kindle", "https://mirror.example/84.mobi")])
      (DownloadEnv.mk (some (200, some (Book.mk 84 "Frankenstein" [⟨"Shelley, Mary"⟩]
        ["en"] [("application/kindle", "https://mirror.example/84.mobi")])))
        (fun _ => some (200, "BYTES")))
      84 "https://mirror.example/84.mobi" "BYTES" 200 200
      rfl (by decide) (by decide) (by decide) (by decide) rfl (by decide)⟩

/-- Claim C9: an unrecognized format code is rejected with a 400 error
    body before any upstream request is made, and a metadata lookup
    reporting 404 yields a 404 error body, never a 500. -/
theorem C9_download_errors :
    (∀ (book_id : Nat) (fmt : String) (env : DownloadEnv),
        alookup FORMAT_MAPPING fmt = none →
        download_book book_id fmt env = (.err 400 "Invalid format", []))
    ∧ (∀ (book_id : Nat) (fmt : String) (env : DownloadEnv) (j : Option Book),
        (alookup FORMAT_MAPPING fmt).isSome = true →
        env.meta = some (404, j) →
        (download_book book_id fmt env).1 = .err 404 "Book not found") := by
  constructor
  · intro book_id fmt env h
    simp [download_book, h]
  · intro book_id fmt env j h hm
    obtain ⟨tm, htm⟩ := Option.isSome_iff_exists.mp h
    simp [download_book, htm, hm]

theorem C9_download_errors_witness :
    (alookup FORMAT_MAPPING "zip" = none
      ∧ download_book 1 "zip" (DownloadEnv.mk (some (404, none)) (fun _ => none))
          = (.err 400 "Invalid format", []))
    ∧ ((alookup FORMAT_MAPPING "epub").isSome = true
      ∧ (DownloadEnv.mk (some (404, none)) (fun _ => none)).meta = some (404, none)
      ∧ (download_book 1 "epub"
          (DownloadEnv.mk (some (404, none)) (fun _ => none))).1
            = .err 404 "Book not found") :=
  ⟨⟨by decide,
     C9_download_errors.1 1 "zip" (DownloadEnv.mk (some (404, none)) (fun _ => none))
       (by decide)⟩,
   ⟨by decide, rfl,
     C9_download_errors.2 1 "epub" (DownloadEnv.mk (some (404, none)) (fun _ => none))
       none (by decide) rfl⟩⟩

/-- Claim C10: a `q` parameter present but equal to the empty string is
    handled exactly like a missing `q`: a 400 with an error body, and no
    upstream catalog call is made. -/
theorem C10_empty_query (catalog : List (String × String) → Option (List Book)) :
    search_books (some "") catalog = search_books none catalog
    ∧ search_books (some "") catalog = (.err 400 "Missing 'q'", []) :=
  ⟨rfl, rfl⟩
